import Mathlib

/-!
Formal model of `mitxgraders/helpers/mathfunc.py` (mitx-grading-library).

Python floats are modelled by real numbers `ℝ` (and rationals `ℚ` where the
source branches on exact integrality, which must stay decidable), complex
numbers by `ℂ`.  A Python call that can raise is modelled as a value of
`Except PyError _`; raising propagates unless the source has a handler
(`mathfunc.py` has none).  Python dicts are modelled as association lists in
insertion order.
-/

/-- A Python exception as relevant here: `TypeError` (e.g. an unsupported
operand type, or `float()` of a many-element array) or `ValueError` with its
message. -/
inductive PyError
| typeError
| valueError (msg : String)
deriving DecidableEq, Repr

/-- The `ConfigError` raised by `mathfunc.py` (declared in
`mitxgraders.baseclasses`, outside the helpers module); all that matters here
is the message it carries. -/
structure ConfigError where
mk :: (msg : String)
deriving DecidableEq, Repr

/-- The third argument of `within_tolerance` (mathfunc.py lines 143-182): a
number, or a percentage string.  `percentStr p` stands for the stripped string
whose `float(tolerance[:-1])` parse is `p`. -/
inductive Tolerance
| num (t : ℝ)
| percentStr (p : ℝ)

/-- mathfunc.py lines 178-181: if the tolerance is a string, replace it by
`np.linalg.norm(x) * float(tolerance[:-1]) * 0.01`, where `normf` is the norm
used for the value type at hand. -/
noncomputable def resolveToleranceWith {α : Type} (normf : α → ℝ) (x : α) : Tolerance → ℝ
| Tolerance.num t => t
| Tolerance.percentStr p => normf x * p * 0.01

/-- mathfunc.py lines 143-182, `within_tolerance(x, y, tolerance)`, on a value
type whose subtraction is total: `np.linalg.norm(x - y) <= tolerance`, with
`np.linalg.norm` the norm of the type (absolute value on scalars, the
Euclidean/Frobenius norm on arrays). -/
noncomputable def within_tolerance {α : Type} [SeminormedAddGroup α] (x y : α) (tol : Tolerance) : Prop :=
  ‖x - y‖ ≤ resolveToleranceWith (fun a => ‖a‖) x tol

/-- mathfunc.py lines 143-182 with the exception flow explicit: the subtraction
`x - y` may raise (`sub` returns `Except`).  The function body contains no
try/except, so a raise in `x - y` propagates to the caller; otherwise the
result is the proposition `norm (x - y) ≤ tolerance`. -/
noncomputable def within_toleranceRun {α : Type} (sub : α → α → Except PyError α)
    (normf : α → ℝ) (x y : α) (tol : Tolerance) : Except PyError Prop :=
  let t : ℝ := resolveToleranceWith normf x tol
  match sub x y with
  | Except.error e => Except.error e
  | Except.ok d => Except.ok (normf d ≤ t)

/-- A value type whose subtraction always raises (per the specification, a value
type whose subtraction always raises a domain error): Python raises
`TypeError: unsupported operand type(s)` when `-` is not supported. -/
inductive NoSub
| mk
deriving DecidableEq, Repr

/-- Subtraction on `NoSub` always raises. -/
def noSubSub : NoSub → NoSub → Except PyError NoSub :=
  fun _ _ => Except.error PyError.typeError

/-- A norm for `NoSub` (its value is irrelevant: the subtraction raises before
the final comparison is reached). -/
def noSubNorm : NoSub → ℝ := fun _ => 1

/-- A numpy numeric scalar with its dtype: a float (`float64`) or a complex
number (`complex128`). -/
inductive NpScalar
| f64 (x : ℝ)
| c128 (z : ℂ)

/-- A numpy numeric value as the helpers handle them: a plain scalar, a
zero-dimensional array, a vector, or a matrix. -/
inductive NpValue
| scalar (s : NpScalar)
| dim0 (s : NpScalar)
| vec (l : List NpScalar)
| mat (m : List (List NpScalar))

/-- A numpy ufunc applied to one scalar: dispatch on the dtype (`fr` on
floats, `fc` on complexes). -/
def npMapScalar (fr : ℝ → ℝ) (fc : ℂ → ℂ) : NpScalar → NpScalar
| NpScalar.f64 x => NpScalar.f64 (fr x)
| NpScalar.c128 z => NpScalar.c128 (fc z)

/-- A numpy ufunc broadcast over a value: applied directly to a scalar or
zero-dimensional array, element-wise to a vector or matrix.  Numeric ufuncs
never raise on numeric input, whatever its shape. -/
def npUfunc (fr : ℝ → ℝ) (fc : ℂ → ℂ) : NpValue → NpValue
| NpValue.scalar s => NpValue.scalar (npMapScalar fr fc s)
| NpValue.dim0 s => NpValue.dim0 (npMapScalar fr fc s)
| NpValue.vec l => NpValue.vec (l.map (npMapScalar fr fc))
| NpValue.mat m => NpValue.mat (m.map (List.map (npMapScalar fr fc)))

/-- `np.sin` as the entry `DEFAULT_FUNCTIONS["sin"]` exposes it (mathfunc.py
line 96): the sine ufunc, raw — no scalar-only wrapper stands between the map
and numpy, so the call always returns the broadcast result. -/
noncomputable def np_sin (v : NpValue) : Except PyError NpValue :=
  Except.ok (npUfunc Real.sin Complex.sin v)

/-- `np.arctan` (mathfunc.py line 109): the principal branch of the complex
inverse tangent, modelled by the Mathlib function `Complex.arctan`. -/
noncomputable def np_arctan : ℂ → ℂ := Complex.arctan

/-- mathfunc.py lines 48-53, `arccot(val)`: piecewise on the sign of
`np.real(val)`. -/
noncomputable def arccot (z : ℂ) : ℂ :=
  if z.re < 0 then -((Real.pi : ℂ) / 2) - np_arctan z
  else (Real.pi : ℂ) / 2 - np_arctan z

/-- `np.real` on one scalar: the real part, as a float. -/
def npRealScalar : NpScalar → NpScalar
| NpScalar.f64 x => NpScalar.f64 x
| NpScalar.c128 z => NpScalar.f64 z.re

/-- `np.imag` on one scalar: the imaginary part, as a float (`0.0` on a
float input). -/
def npImagScalar : NpScalar → NpScalar
| NpScalar.f64 _ => NpScalar.f64 0
| NpScalar.c128 z => NpScalar.f64 z.im

/-- `np.real(x)` (used at mathfunc.py line 129): real parts, element-wise on
arrays; on a scalar the old numpy used here goes through `asanyarray` and
returns a zero-dimensional array (the reason the source wraps it in
`float(...)`). -/
def np_real : NpValue → NpValue
| NpValue.scalar s => NpValue.dim0 (npRealScalar s)
| NpValue.dim0 s => NpValue.dim0 (npRealScalar s)
| NpValue.vec l => NpValue.vec (l.map npRealScalar)
| NpValue.mat m => NpValue.mat (m.map (List.map npRealScalar))

/-- `np.imag(x)` (used at mathfunc.py line 130), shaped like `np_real`. -/
def np_imag : NpValue → NpValue
| NpValue.scalar s => NpValue.dim0 (npImagScalar s)
| NpValue.dim0 s => NpValue.dim0 (npImagScalar s)
| NpValue.vec l => NpValue.vec (l.map npImagScalar)
| NpValue.mat m => NpValue.mat (m.map (List.map npImagScalar))

/-- Python `float(...)` on one numpy scalar: a float converts, a complex
raises `TypeError`. -/
def pyFloatScalar : NpScalar → Except PyError ℝ
| NpScalar.f64 x => Except.ok x
| NpScalar.c128 _ => Except.error PyError.typeError

/-- Python `float(...)` on a numpy value: scalars and zero-dimensional arrays
convert, as do length-one arrays; an array with any other number of elements
raises `TypeError` (only length-1 arrays can be converted to Python
scalars). -/
def pyFloat : NpValue → Except PyError ℝ
| NpValue.scalar s => pyFloatScalar s
| NpValue.dim0 s => pyFloatScalar s
| NpValue.vec [s] => pyFloatScalar s
| NpValue.vec _ => Except.error PyError.typeError
| NpValue.mat [[s]] => pyFloatScalar s
| NpValue.mat _ => Except.error PyError.typeError

/-- mathfunc.py line 129, the entry `DEFAULT_FUNCTIONS["re"]`:
`lambda x: float(np.real(x))`.  The result, when the call returns, is a
genuine Python float. -/
def reFn (x : NpValue) : Except PyError NpValue :=
  (pyFloat (np_real x)).map (fun r => NpValue.scalar (NpScalar.f64 r))

/-- mathfunc.py line 130, the entry `DEFAULT_FUNCTIONS["im"]`:
`lambda x: float(np.imag(x))`. -/
def imFn (x : NpValue) : Except PyError NpValue :=
  (pyFloat (np_imag x)).map (fun r => NpValue.scalar (NpScalar.f64 r))

/-- mathfunc.py line 131, the entry `DEFAULT_FUNCTIONS["conj"]`: `np.conj`,
the complex-conjugate ufunc (identity on floats), element-wise on arrays. -/
def np_conj (v : NpValue) : Except PyError NpValue :=
  Except.ok (npUfunc id (fun z => (starRingEnd ℂ) z) v)

/-- A Python number as `math.factorial` sees it: an int, a float (rational,
so that the integrality test the C implementation performs stays decidable),
or a complex. -/
inductive PyNum
| int (n : ℤ)
| float (q : ℚ)
| complex (re im : ℚ)
deriving DecidableEq, Repr

/-- `math.factorial` (the entries `DEFAULT_FUNCTIONS["fact"]` and
`DEFAULT_FUNCTIONS["factorial"]`, mathfunc.py lines 114-115): exact integer
factorial of a non-negative integer (an integral float is accepted);
`ValueError` on a negative or non-integral argument, `TypeError` on a
complex one.  There is no gamma-function extension. -/
def mathFactorial : PyNum → Except PyError PyNum
| PyNum.int n =>
    if n < 0 then Except.error (PyError.valueError "factorial() not defined for negative values")
    else Except.ok (PyNum.int (Int.ofNat n.toNat.factorial))
| PyNum.float q =>
    if q.den = 1 then
      if q.num < 0 then Except.error (PyError.valueError "factorial() not defined for negative values")
      else Except.ok (PyNum.int (Int.ofNat q.num.toNat.factorial))
    else Except.error (PyError.valueError "factorial() only accepts integral values")
| PyNum.complex _ _ => Except.error PyError.typeError

/-- One tag per distinct function object appearing as a value of the
`DEFAULT_FUNCTIONS` dict literal (mathfunc.py lines 95-132); `fact` and
`factorial` name the same object `math.factorial`. -/
inductive FuncTag
| sin | cos | tan | sec | csc | cot
| sqrt | log10 | log2 | ln | exp
| arccos | arcsin | arctan | arcsec | arccsc | arccot
| abs | factorial
| sinh | cosh | tanh | sech | csch | coth
| arcsinh | arccosh | arctanh | arcsech | arccsch | arccoth
| reLambda | imLambda | conj
deriving DecidableEq, Repr

/-- A value held in a functions dict: a base-library entry, or a user-supplied
function object (told apart by an identity number, as Python objects are). -/
inductive FuncVal
| builtin (t : FuncTag)
| user (id : ℕ)
deriving DecidableEq, Repr

/-- Dict lookup on an insertion-ordered association list. -/
def dictLookup {V : Type} : List (String × V) → String → Option V
| [], _ => none
| (k, v) :: rest, key => if k = key then some v else dictLookup rest key

/-- Dict assignment: replace the value in place when the key is present,
append the pair otherwise. -/
def dictInsert {V : Type} : List (String × V) → String → V → List (String × V)
| [], key, val => [(key, val)]
| (k, v) :: rest, key, val =>
    if k = key then (k, val) :: rest else (k, v) :: dictInsert rest key val

/-- Dict deletion of a present key. -/
def dictErase {V : Type} : List (String × V) → String → List (String × V)
| [], _ => []
| (k, v) :: rest, key => if k = key then rest else (k, v) :: dictErase rest key

/-- The `DEFAULT_FUNCTIONS` dict literal, mathfunc.py lines 95-132, entry for
entry in source order. -/
def DEFAULT_FUNCTIONS : List (String × FuncVal) :=
  [ ("sin", FuncVal.builtin FuncTag.sin)
  , ("cos", FuncVal.builtin FuncTag.cos)
  , ("tan", FuncVal.builtin FuncTag.tan)
  , ("sec", FuncVal.builtin FuncTag.sec)
  , ("csc", FuncVal.builtin FuncTag.csc)
  , ("cot", FuncVal.builtin FuncTag.cot)
  , ("sqrt", FuncVal.builtin FuncTag.sqrt)
  , ("log10", FuncVal.builtin FuncTag.log10)
  , ("log2", FuncVal.builtin FuncTag.log2)
  , ("ln", FuncVal.builtin FuncTag.ln)
  , ("exp", FuncVal.builtin FuncTag.exp)
  , ("arccos", FuncVal.builtin FuncTag.arccos)
  , ("arcsin", FuncVal.builtin FuncTag.arcsin)
  , ("arctan", FuncVal.builtin FuncTag.arctan)
  , ("arcsec", FuncVal.builtin FuncTag.arcsec)
  , ("arccsc", FuncVal.builtin FuncTag.arccsc)
  , ("arccot", FuncVal.builtin FuncTag.arccot)
  , ("abs", FuncVal.builtin FuncTag.abs)
  , ("fact", FuncVal.builtin FuncTag.factorial)
  , ("factorial", FuncVal.builtin FuncTag.factorial)
  , ("sinh", FuncVal.builtin FuncTag.sinh)
  , ("cosh", FuncVal.builtin FuncTag.cosh)
  , ("tanh", FuncVal.builtin FuncTag.tanh)
  , ("sech", FuncVal.builtin FuncTag.sech)
  , ("csch", FuncVal.builtin FuncTag.csch)
  , ("coth", FuncVal.builtin FuncTag.coth)
  , ("arcsinh", FuncVal.builtin FuncTag.arcsinh)
  , ("arccosh", FuncVal.builtin FuncTag.arccosh)
  , ("arctanh", FuncVal.builtin FuncTag.arctanh)
  , ("arcsech", FuncVal.builtin FuncTag.arcsech)
  , ("arccsch", FuncVal.builtin FuncTag.arccsch)
  , ("arccoth", FuncVal.builtin FuncTag.arccoth)
  , ("re", FuncVal.builtin FuncTag.reLambda)
  , ("im", FuncVal.builtin FuncTag.imLambda)
  , ("conj", FuncVal.builtin FuncTag.conj)
  ]

/-- A key of the `user_funcs` dict: Python lets any object be a key, and the
source checks `isinstance(f, str)`; a non-string key carries its `str(f)`
rendering, which the error message uses. -/
inductive PyKey
| str (s : String)
| nonString (repr : String)
deriving DecidableEq, Repr

/-- A value of the `user_funcs` dict, as the `isinstance` dispatch at
mathfunc.py lines 264-271 tells them apart: a Python list of function objects,
a `FunctionSamplingSet` instance, or any other object (treated as a single
plain function).  Function and sampling-set objects are told apart by an
identity number. -/
inductive UserFuncVal
| list (fs : List ℕ)
| samplingSet (s : ℕ)
| plain (f : ℕ)
deriving DecidableEq, Repr

/-- A value of the returned `random_funcs` dict: a `SpecificFunctions`
instance built from a user list, or a user sampling set stored as-is. -/
inductive RandVal
| specificFunctions (fs : List ℕ)
| samplingSet (s : ℕ)
deriving DecidableEq, Repr

/-- mathfunc.py lines 238-247: the whitelist loop.  `None` entries are
skipped; every other entry is looked up in `DEFAULT_FUNCTIONS` and copied into
the accumulating dict; an unknown name raises `ConfigError` naming it. -/
def buildWhitelist : List (String × FuncVal) → List (Option String) →
    Except ConfigError (List (String × FuncVal))
| functions, [] => Except.ok functions
| functions, none :: rest => buildWhitelist functions rest
| functions, some f :: rest =>
    match dictLookup DEFAULT_FUNCTIONS f with
    | some impl => buildWhitelist (dictInsert functions f impl) rest
    | none => Except.error (ConfigError.mk ("Unknown function in whitelist: " ++ f))

/-- mathfunc.py lines 248-255: the blacklist loop over a copy of
`DEFAULT_FUNCTIONS`.  `del functions[f]` raises `KeyError` on an absent key,
re-raised as `ConfigError` naming the entry. -/
def buildBlacklist : List (String × FuncVal) → List String →
    Except ConfigError (List (String × FuncVal))
| functions, [] => Except.ok functions
| functions, f :: rest =>
    match dictLookup functions f with
    | some _ => buildBlacklist (dictErase functions f) rest
    | none => Except.error (ConfigError.mk ("Unknown function in blacklist: " ++ f))

/-- mathfunc.py lines 257-271: the user-functions loop.  A non-string key
raises `ConfigError`; a list value becomes `SpecificFunctions` in
`random_funcs`; a `FunctionSamplingSet` value goes into `random_funcs` as-is;
any other value is assigned into `functions` (overwriting by name). -/
def buildUserFuncs : List (String × FuncVal) → List (String × RandVal) →
    List (PyKey × UserFuncVal) →
    Except ConfigError (List (String × FuncVal) × List (String × RandVal))
| functions, random_funcs, [] => Except.ok (functions, random_funcs)
| _, _, (PyKey.nonString r, _) :: _ =>
    Except.error (ConfigError.mk (r ++ " is not a valid name for a function (must be a string)"))
| functions, random_funcs, (PyKey.str f, UserFuncVal.list fs) :: rest =>
    buildUserFuncs functions (dictInsert random_funcs f (RandVal.specificFunctions fs)) rest
| functions, random_funcs, (PyKey.str f, UserFuncVal.samplingSet s) :: rest =>
    buildUserFuncs functions (dictInsert random_funcs f (RandVal.samplingSet s)) rest
| functions, random_funcs, (PyKey.str f, UserFuncVal.plain g) :: rest =>
    buildUserFuncs (dictInsert functions f (FuncVal.user g)) random_funcs rest

/-- mathfunc.py lines 184-273, `construct_functions(whitelist, blacklist,
user_funcs)`.  A non-empty whitelist excludes a non-empty blacklist and is
built from an empty dict; an empty whitelist starts from a copy of
`DEFAULT_FUNCTIONS` with the blacklist deleted; the user functions are applied
last.  Any `ConfigError` raised on the way propagates. -/
def construct_functions (whitelist : List (Option String)) (blacklist : List String)
    (user_funcs : List (PyKey × UserFuncVal)) :
    Except ConfigError (List (String × FuncVal) × List (String × RandVal)) :=
  let functionsE : Except ConfigError (List (String × FuncVal)) :=
    if whitelist ≠ [] then
      if blacklist ≠ [] then
        Except.error (ConfigError.mk "Cannot whitelist and blacklist at the same time")
      else buildWhitelist [] whitelist
    else buildBlacklist DEFAULT_FUNCTIONS blacklist
  match functionsE with
  | Except.error e => Except.error e
  | Except.ok functions => buildUserFuncs functions [] user_funcs

/-- C1 counterexample: on a value type whose subtraction always raises,
`within_tolerance(ref, that_value, "1%")` does not return `False` — the
`TypeError` from the subtraction escapes to the caller. -/
theorem within_toleranceRun_noSub_counterexample :
    within_toleranceRun noSubSub noSubNorm NoSub.mk NoSub.mk (Tolerance.percentStr 1) =
      Except.error PyError.typeError := rfl

/-- C1 (amended): `within_tolerance` contains no handler, so whenever the
subtraction `x - y` raises, the same error propagates to the caller — the pair
is never downgraded to "not within tolerance". -/
theorem within_toleranceRun_propagates {α : Type} (sub : α → α → Except PyError α)
    (normf : α → ℝ) (x y : α) (tol : Tolerance) (e : PyError)
    (h : sub x y = Except.error e) :
    within_toleranceRun sub normf x y tol = Except.error e := by
  simp [within_toleranceRun, h]

/-- Witness for `within_toleranceRun_propagates` at the concrete type `NoSub`
with a plain numeric tolerance. -/
theorem within_toleranceRun_propagates_witness :
    within_toleranceRun noSubSub noSubNorm NoSub.mk NoSub.mk (Tolerance.num 0) =
      Except.error PyError.typeError :=
  within_toleranceRun_propagates noSubSub noSubNorm NoSub.mk NoSub.mk (Tolerance.num 0)
    PyError.typeError rfl

/-- C2 counterexample: the `sin` entry exposed by `DEFAULT_FUNCTIONS`, called
on a two-element vector, raises nothing — it returns the element-wise sine,
so no Domain Error guards the scalar-only entries. -/
theorem np_sin_vector_counterexample :
    np_sin (NpValue.vec [NpScalar.f64 0, NpScalar.f64 1]) =
      Except.ok (NpValue.vec [NpScalar.f64 (Real.sin 0), NpScalar.f64 (Real.sin 1)]) := rfl

/-- C2 (amended): `DEFAULT_FUNCTIONS` exposes `sin` as the raw numpy ufunc,
with no scalar-only guard: on a real or complex scalar and on a
zero-dimensional array it returns the result of the underlying function, and on a
vector or matrix it silently vectorizes element-wise instead of raising. -/
theorem np_sin_unguarded :
    dictLookup DEFAULT_FUNCTIONS "sin" = some (FuncVal.builtin FuncTag.sin) ∧
    (∀ x : ℝ, np_sin (NpValue.scalar (NpScalar.f64 x)) =
        Except.ok (NpValue.scalar (NpScalar.f64 (Real.sin x)))) ∧
    (∀ z : ℂ, np_sin (NpValue.scalar (NpScalar.c128 z)) =
        Except.ok (NpValue.scalar (NpScalar.c128 (Complex.sin z)))) ∧
    (∀ s : NpScalar, np_sin (NpValue.dim0 s) =
        Except.ok (NpValue.dim0 (npMapScalar Real.sin Complex.sin s))) ∧
    (∀ l : List NpScalar, np_sin (NpValue.vec l) =
        Except.ok (NpValue.vec (l.map (npMapScalar Real.sin Complex.sin)))) ∧
    (∀ m : List (List NpScalar), np_sin (NpValue.mat m) =
        Except.ok (NpValue.mat (m.map (List.map (npMapScalar Real.sin Complex.sin))))) :=
  ⟨rfl, fun _ => rfl, fun _ => rfl, fun _ => rfl, fun _ => rfl, fun _ => rfl⟩

/-- C4 counterexample: `factorial(0.5)` raises `ValueError` — `math.factorial`
has no gamma-function extension, so no value close to `√π/2` is returned. -/
theorem mathFactorial_half_counterexample :
    mathFactorial (PyNum.float (1/2)) =
      Except.error (PyError.valueError "factorial() only accepts integral values") := by
  have h : (1/2 : ℚ).den ≠ 1 := by norm_num
  simp only [mathFactorial]
  rw [if_neg h]

/-- C4 (amended): the `fact`/`factorial` entries are `math.factorial`: exact
integer factorial of a non-negative integer, an error raised for a negative
integer, for a non-integral float, and for a complex argument — never the
gamma-function analytic continuation. -/
theorem mathFactorial_spec :
    dictLookup DEFAULT_FUNCTIONS "fact" = some (FuncVal.builtin FuncTag.factorial) ∧
    dictLookup DEFAULT_FUNCTIONS "factorial" = some (FuncVal.builtin FuncTag.factorial) ∧
    (∀ n : ℕ, mathFactorial (PyNum.int (n : ℤ)) =
        Except.ok (PyNum.int (Int.ofNat n.factorial))) ∧
    (∀ n : ℕ, mathFactorial (PyNum.int (-((n : ℤ) + 1))) =
        Except.error (PyError.valueError "factorial() not defined for negative values")) ∧
    (∀ q : ℚ, q.den ≠ 1 → mathFactorial (PyNum.float q) =
        Except.error (PyError.valueError "factorial() only accepts integral values")) ∧
    (∀ a b : ℚ, mathFactorial (PyNum.complex a b) = Except.error PyError.typeError) ∧
    mathFactorial (PyNum.int 4) = Except.ok (PyNum.int 24) := by
  refine ⟨rfl, rfl, ?_, ?_, ?_, fun a b => rfl, rfl⟩
  · intro n
    simp only [mathFactorial]
    rw [if_neg (by omega : ¬((n : ℤ) < 0))]
    simp
  · intro n
    simp only [mathFactorial]
    rw [if_pos (by omega : (-((n : ℤ) + 1) < 0))]
  · intro q h
    simp only [mathFactorial]
    rw [if_neg h]

/-- Witness for `mathFactorial_spec`: the non-integral float `1/3` satisfies
the hypothesis of the non-integral clause. -/
theorem mathFactorial_spec_witness :
    mathFactorial (PyNum.float (1/3)) =
      Except.error (PyError.valueError "factorial() only accepts integral values") :=
  mathFactorial_spec.2.2.2.2.1 (1/3) (by norm_num)

/-- C5 counterexample: the `re` entry, `lambda x: float(np.real(x))`, raises
`TypeError` on a two-element vector — `float()` refuses an array of more than
one element, so `re` is not element-wise on vectors. -/
theorem reFn_vector_counterexample :
    reFn (NpValue.vec [NpScalar.f64 1, NpScalar.f64 2]) = Except.error PyError.typeError := rfl

/-- C5 (amended): `re` and `im` return a genuine Python float (a scalar,
never a zero-dimensional array) on scalar and zero-dimensional input, but
raise `TypeError` on any vector of two or more elements; only `conj` is
element-wise on arrays. -/
theorem reFn_imFn_scalar_results :
    dictLookup DEFAULT_FUNCTIONS "re" = some (FuncVal.builtin FuncTag.reLambda) ∧
    dictLookup DEFAULT_FUNCTIONS "im" = some (FuncVal.builtin FuncTag.imLambda) ∧
    dictLookup DEFAULT_FUNCTIONS "conj" = some (FuncVal.builtin FuncTag.conj) ∧
    (∀ x : ℝ, reFn (NpValue.scalar (NpScalar.f64 x)) =
        Except.ok (NpValue.scalar (NpScalar.f64 x))) ∧
    (∀ z : ℂ, reFn (NpValue.scalar (NpScalar.c128 z)) =
        Except.ok (NpValue.scalar (NpScalar.f64 z.re))) ∧
    (∀ x : ℝ, imFn (NpValue.scalar (NpScalar.f64 x)) =
        Except.ok (NpValue.scalar (NpScalar.f64 0))) ∧
    (∀ z : ℂ, imFn (NpValue.scalar (NpScalar.c128 z)) =
        Except.ok (NpValue.scalar (NpScalar.f64 z.im))) ∧
    (∀ s : NpScalar, reFn (NpValue.dim0 s) = Except.ok (NpValue.scalar (npRealScalar s))) ∧
    (∀ a b : NpScalar, ∀ rest : List NpScalar,
        reFn (NpValue.vec (a :: b :: rest)) = Except.error PyError.typeError) ∧
    (∀ a b : NpScalar, ∀ rest : List NpScalar,
        imFn (NpValue.vec (a :: b :: rest)) = Except.error PyError.typeError) ∧
    (∀ l : List NpScalar, np_conj (NpValue.vec l) =
        Except.ok (NpValue.vec (l.map (npMapScalar id (fun z => (starRingEnd ℂ) z))))) := by
  refine ⟨rfl, rfl, rfl, fun x => rfl, fun z => rfl, fun x => rfl, fun z => rfl,
    ?_, ?_, ?_, fun l => rfl⟩
  · intro s; cases s <;> rfl
  · intro a b rest; cases a <;> rfl
  · intro a b rest; cases a <;> rfl

/-- C7: the four basic shapes of `construct_functions`: no lists gives the
base library and an empty randomized map; a `[None]` whitelist gives an empty
map; a `["sin"]` whitelist gives exactly the base `sin` entry; a `["sin"]`
blacklist gives the base library minus `sin`. -/
theorem construct_functions_basic_cases :
    construct_functions [] [] [] = Except.ok (DEFAULT_FUNCTIONS, []) ∧
    construct_functions [none] [] [] = Except.ok ([], []) ∧
    construct_functions [some "sin"] [] [] =
      Except.ok ([("sin", FuncVal.builtin FuncTag.sin)], []) ∧
    construct_functions [] ["sin"] [] = Except.ok (dictErase DEFAULT_FUNCTIONS "sin", []) :=
  ⟨rfl, rfl, rfl, rfl⟩

/-- C9: `arccot` is exactly the piecewise combination of the library
arctangent: `-π/2 - arctan z` on negative real part, `π/2 - arctan z` on zero
or positive real part. -/
theorem arccot_piecewise :
    (∀ z : ℂ, z.re < 0 → arccot z = -((Real.pi : ℂ) / 2) - np_arctan z) ∧
    (∀ z : ℂ, 0 ≤ z.re → arccot z = (Real.pi : ℂ) / 2 - np_arctan z) := by
  constructor
  · intro z h
    simp only [arccot]
    rw [if_pos h]
  · intro z h
    simp only [arccot]
    rw [if_neg (not_lt.mpr h)]

/-- Witness for `arccot_piecewise` at `z = -1` and `z = 1`. -/
theorem arccot_piecewise_witness :
    arccot (-1) = -((Real.pi : ℂ) / 2) - np_arctan (-1) ∧
    arccot 1 = (Real.pi : ℂ) / 2 - np_arctan 1 :=
  ⟨arccot_piecewise.1 (-1) (by norm_num [Complex.neg_re, Complex.one_re]),
   arccot_piecewise.2 1 (by norm_num [Complex.one_re])⟩

/-- C10: `within_tolerance` is reflexive — `norm (x - x) = 0`, which every
non-negative plain tolerance and every non-negative percentage tolerance
admits. -/
theorem within_tolerance_refl {α : Type} [SeminormedAddGroup α] (x : α) (t p : ℝ)
    (ht : 0 ≤ t) (hp : 0 ≤ p) :
    within_tolerance x x (Tolerance.num t) ∧ within_tolerance x x (Tolerance.percentStr p) := by
  constructor
  · simpa [within_tolerance, resolveToleranceWith] using ht
  · simp only [within_tolerance, resolveToleranceWith, sub_self, norm_zero]
    exact mul_nonneg (mul_nonneg (norm_nonneg x) hp) (by norm_num)

/-- Witness for `within_tolerance_refl` at `x = 3`, tolerance `1`,
percentage `2%`. -/
theorem within_tolerance_refl_witness :
    within_tolerance (3 : ℝ) 3 (Tolerance.num 1) ∧
    within_tolerance (3 : ℝ) 3 (Tolerance.percentStr 2) :=
  within_tolerance_refl 3 1 2 (by norm_num) (by norm_num)

/-- C3: `within_tolerance` holds exactly when `norm (x - y)` is at most the
resolved tolerance; a percentage string resolves to
`norm (x) * parsed * 0.01`; the norm is the absolute value on scalars and the
Euclidean norm on arrays; and the documented concrete cases hold, including
the asymmetry under swapping the arguments of a percentage tolerance. -/
theorem within_tolerance_spec :
    (∀ (α : Type) [SeminormedAddGroup α] (x y : α) (tol : Tolerance),
        within_tolerance x y tol ↔ ‖x - y‖ ≤ resolveToleranceWith (fun a => ‖a‖) x tol) ∧
    (∀ (α : Type) [SeminormedAddGroup α] (x : α) (p : ℝ),
        resolveToleranceWith (fun a => ‖a‖) x (Tolerance.percentStr p) = ‖x‖ * p * 0.01) ∧
    (∀ x : ℝ, ‖x‖ = |x|) ∧
    (∀ (n : ℕ) (v : EuclideanSpace ℝ (Fin n)), ‖v‖ = Real.sqrt (∑ i, (v i)^2)) ∧
    within_tolerance (10 : ℝ) 9.01 (Tolerance.num 1) ∧
    ¬ within_tolerance (10 : ℝ) 9.01 (Tolerance.num 0.5) ∧
    within_tolerance (10 : ℝ) 9.01 (Tolerance.percentStr 10) ∧
    ¬ within_tolerance (9.01 : ℝ) 10 (Tolerance.percentStr 10) := by
  refine ⟨fun α _ x y tol => Iff.rfl, fun α _ x p => rfl,
    fun x => Real.norm_eq_abs x, ?_, ?_, ?_, ?_, ?_⟩
  · intro n v
    rw [EuclideanSpace.norm_eq]
    congr 1
    refine Finset.sum_congr rfl (fun i _ => ?_)
    rw [Real.norm_eq_abs, sq_abs]
  · simp only [within_tolerance, resolveToleranceWith, Real.norm_eq_abs]
    norm_num [abs_of_pos]
  · simp only [within_tolerance, resolveToleranceWith, Real.norm_eq_abs]
    norm_num [abs_of_pos]
  · simp only [within_tolerance, resolveToleranceWith, Real.norm_eq_abs]
    norm_num [abs_of_pos]
  · simp only [within_tolerance, resolveToleranceWith, Real.norm_eq_abs]
    rw [show (9.01:ℝ) - 10 = -0.99 by norm_num, abs_neg]
    norm_num [abs_of_pos]

/-- Erasing one key never makes another, absent key present. -/
theorem dictLookup_erase_none {V : Type} (k f : String) :
    ∀ m : List (String × V), dictLookup m f = none → dictLookup (dictErase m k) f = none := by
  intro m
  induction m with
  | nil => intro _; rfl
  | cons p rest ih =>
    intro h
    obtain ⟨a, v⟩ := p
    simp only [dictLookup] at h
    have haf : ¬ a = f := by
      intro hh
      rw [if_pos hh] at h
      cases h
    rw [if_neg haf] at h
    by_cases hak : a = k
    · simpa [dictErase, hak] using h
    · simp only [dictErase, if_neg hak, dictLookup, if_neg haf]
      exact ih h

/-- The whitelist loop of `construct_functions`: when some whitelisted name is
unknown to the base library, the loop raises `ConfigError` naming an unknown
whitelisted name, whatever dict it has accumulated so far. -/
theorem buildWhitelist_unknown :
    ∀ (wl : List (Option String)) (acc : List (String × FuncVal)),
      (∃ f, some f ∈ wl ∧ dictLookup DEFAULT_FUNCTIONS f = none) →
      ∃ g, some g ∈ wl ∧ dictLookup DEFAULT_FUNCTIONS g = none ∧
        buildWhitelist acc wl =
          Except.error (ConfigError.mk ("Unknown function in whitelist: " ++ g)) := by
  intro wl
  induction wl with
  | nil =>
    intro acc h
    obtain ⟨f, hf, _⟩ := h
    cases hf
  | cons o rest ih =>
    intro acc h
    obtain ⟨f, hf, hnone⟩ := h
    match o with
    | none =>
      have hf' : some f ∈ rest := by
        rcases List.mem_cons.mp hf with h1 | h2
        · cases h1
        · exact h2
      obtain ⟨g, hg, hgnone, hgeq⟩ := ih acc ⟨f, hf', hnone⟩
      exact ⟨g, List.mem_cons_of_mem _ hg, hgnone, hgeq⟩
    | some a =>
      cases hl : dictLookup DEFAULT_FUNCTIONS a with
      | none =>
        refine ⟨a, List.mem_cons_self _ _, hl, ?_⟩
        simp [buildWhitelist, hl]
      | some impl =>
        have hf' : some f ∈ rest := by
          rcases List.mem_cons.mp hf with h1 | h2
          · injection h1 with h1
            rw [h1] at hnone
            rw [hl] at hnone
            cases hnone
          · exact h2
        obtain ⟨g, hg, hgnone, hgeq⟩ := ih (dictInsert acc a impl) ⟨f, hf', hnone⟩
        refine ⟨g, List.mem_cons_of_mem _ hg, hgnone, ?_⟩
        simpa [buildWhitelist, hl] using hgeq

/-- The blacklist loop of `construct_functions`: when some blacklisted name is
absent from the dict, the loop raises `ConfigError` naming a blacklisted
name. -/
theorem buildBlacklist_unknown :
    ∀ (bl : List String) (m : List (String × FuncVal)),
      (∃ f, f ∈ bl ∧ dictLookup m f = none) →
      ∃ g, g ∈ bl ∧ buildBlacklist m bl =
        Except.error (ConfigError.mk ("Unknown function in blacklist: " ++ g)) := by
  intro bl
  induction bl with
  | nil =>
    intro m h
    obtain ⟨f, hf, _⟩ := h
    cases hf
  | cons b rest ih =>
    intro m h
    obtain ⟨f, hf, hnone⟩ := h
    cases hl : dictLookup m b with
    | none =>
      refine ⟨b, List.mem_cons_self _ _, ?_⟩
      simp [buildBlacklist, hl]
    | some v =>
      have hfb : ¬ f = b := by
        intro hh
        rw [hh, hl] at hnone
        cases hnone
      have hf' : f ∈ rest := by
        rcases List.mem_cons.mp hf with h1 | h2
        · exact absurd h1 hfb
        · exact h2
      obtain ⟨g, hg, hgeq⟩ := ih (dictErase m b) ⟨f, hf', dictLookup_erase_none b f m hnone⟩
      refine ⟨g, List.mem_cons_of_mem _ hg, ?_⟩
      simpa [buildBlacklist, hl] using hgeq

/-- C6: the three configuration errors of `construct_functions`: a non-empty
whitelist together with a non-empty blacklist; a whitelisted name unknown to
the base library (the error names such an entry); a blacklisted name absent
from the base library (the error names an offending blacklist entry). -/
theorem construct_functions_error_cases :
    (∀ (w : Option String) (wrest : List (Option String)) (b : String)
        (brest : List String) (uf : List (PyKey × UserFuncVal)),
        construct_functions (w :: wrest) (b :: brest) uf =
          Except.error (ConfigError.mk "Cannot whitelist and blacklist at the same time")) ∧
    (∀ (wl : List (Option String)) (uf : List (PyKey × UserFuncVal)),
        (∃ f, some f ∈ wl ∧ dictLookup DEFAULT_FUNCTIONS f = none) →
        ∃ g, some g ∈ wl ∧ dictLookup DEFAULT_FUNCTIONS g = none ∧
          construct_functions wl [] uf =
            Except.error (ConfigError.mk ("Unknown function in whitelist: " ++ g))) ∧
    (∀ (bl : List String) (uf : List (PyKey × UserFuncVal)),
        (∃ f, f ∈ bl ∧ dictLookup DEFAULT_FUNCTIONS f = none) →
        ∃ g, g ∈ bl ∧ construct_functions [] bl uf =
          Except.error (ConfigError.mk ("Unknown function in blacklist: " ++ g))) := by
  refine ⟨?_, ?_, ?_⟩
  · intro w wrest b brest uf
    simp [construct_functions]
  · intro wl uf hex
    have hwl : wl ≠ [] := by
      obtain ⟨f, hf, _⟩ := hex
      intro h
      rw [h] at hf
      cases hf
    obtain ⟨g, hg, hgnone, hgeq⟩ := buildWhitelist_unknown wl [] hex
    refine ⟨g, hg, hgnone, ?_⟩
    simp [construct_functions, if_pos hwl, hgeq]
  · intro bl uf hex
    obtain ⟨g, hg, hgeq⟩ := buildBlacklist_unknown bl DEFAULT_FUNCTIONS hex
    refine ⟨g, hg, ?_⟩
    simp [construct_functions, hgeq]

/-- Witness for `construct_functions_error_cases`: whitelisting `sin` while
blacklisting `cos` fails with the mutual-exclusion error. -/
theorem construct_functions_error_cases_witness :
    construct_functions [some "sin"] ["cos"] [] =
      Except.error (ConfigError.mk "Cannot whitelist and blacklist at the same time") :=
  construct_functions_error_cases.1 (some "sin") [] "cos" [] []

/-- The user-functions loop of `construct_functions`: when some key of the
user dict is not a string, the loop raises `ConfigError` describing such a
key. -/
theorem buildUserFuncs_nonString :
    ∀ (uf : List (PyKey × UserFuncVal)) (fns : List (String × FuncVal))
      (rnd : List (String × RandVal)),
      (∃ r v, (PyKey.nonString r, v) ∈ uf) →
      ∃ r2 v2, (PyKey.nonString r2, v2) ∈ uf ∧
        buildUserFuncs fns rnd uf =
          Except.error
            (ConfigError.mk (r2 ++ " is not a valid name for a function (must be a string)")) := by
  intro uf
  induction uf with
  | nil =>
    intro fns rnd h
    obtain ⟨r, v, hm⟩ := h
    cases hm
  | cons p rest ih =>
    intro fns rnd h
    obtain ⟨r, v, hmem⟩ := h
    obtain ⟨key, val⟩ := p
    match key with
    | PyKey.nonString r0 => exact ⟨r0, val, List.mem_cons_self _ _, rfl⟩
    | PyKey.str s =>
      have hmem' : ∃ r v, (PyKey.nonString r, v) ∈ rest := by
        rcases List.mem_cons.mp hmem with h1 | h2
        · simp at h1
        · exact ⟨r, v, h2⟩
      match val with
      | UserFuncVal.list fs =>
        obtain ⟨r2, v2, hm, heq⟩ :=
          ih fns (dictInsert rnd s (RandVal.specificFunctions fs)) hmem'
        exact ⟨r2, v2, List.mem_cons_of_mem _ hm, heq⟩
      | UserFuncVal.samplingSet t =>
        obtain ⟨r2, v2, hm, heq⟩ := ih fns (dictInsert rnd s (RandVal.samplingSet t)) hmem'
        exact ⟨r2, v2, List.mem_cons_of_mem _ hm, heq⟩
      | UserFuncVal.plain g =>
        obtain ⟨r2, v2, hm, heq⟩ := ih (dictInsert fns s (FuncVal.user g)) rnd hmem'
        exact ⟨r2, v2, List.mem_cons_of_mem _ hm, heq⟩

/-- C8: user-supplied entries of `construct_functions`: a non-string name
fails the build with a configuration error describing it; a list value is
stored in the randomized-functions output as a `SpecificFunctions` descriptor
and not in the plain map; a sampling-set value is stored in the
randomized-functions output as-is; any other value lands in the plain map,
overwriting the entry of the same name left by whitelist/blacklist
filtering. -/
theorem construct_functions_user_cases :
    (∀ uf : List (PyKey × UserFuncVal),
        (∃ r v, (PyKey.nonString r, v) ∈ uf) →
        ∃ r2 v2, (PyKey.nonString r2, v2) ∈ uf ∧
          construct_functions [] [] uf =
            Except.error
              (ConfigError.mk (r2 ++ " is not a valid name for a function (must be a string)"))) ∧
    (∀ (n : String) (fs : List ℕ),
        construct_functions [] [] [(PyKey.str n, UserFuncVal.list fs)] =
          Except.ok (DEFAULT_FUNCTIONS, [(n, RandVal.specificFunctions fs)])) ∧
    (∀ (n : String) (s : ℕ),
        construct_functions [] [] [(PyKey.str n, UserFuncVal.samplingSet s)] =
          Except.ok (DEFAULT_FUNCTIONS, [(n, RandVal.samplingSet s)])) ∧
    (∀ (n : String) (g : ℕ),
        construct_functions [] [] [(PyKey.str n, UserFuncVal.plain g)] =
          Except.ok (dictInsert DEFAULT_FUNCTIONS n (FuncVal.user g), [])) ∧
    (∀ g : ℕ,
        construct_functions [some "sin"] [] [(PyKey.str "sin", UserFuncVal.plain g)] =
          Except.ok ([("sin", FuncVal.user g)], [])) ∧
    (∀ g : ℕ,
        dictLookup (dictInsert DEFAULT_FUNCTIONS "sin" (FuncVal.user g)) "sin" =
          some (FuncVal.user g)) := by
  refine ⟨?_, fun n fs => rfl, fun n s => rfl, fun n g => rfl, fun g => rfl, fun g => rfl⟩
  intro uf hex
  obtain ⟨r2, v2, hm, heq⟩ := buildUserFuncs_nonString uf DEFAULT_FUNCTIONS [] hex
  exact ⟨r2, v2, hm, heq⟩

/-- Witness for `construct_functions_user_cases`: a single user entry keyed by
the non-string object rendered `3`. -/
theorem construct_functions_user_cases_witness :
    ∃ r2 v2, (PyKey.nonString r2, v2) ∈ [(PyKey.nonString "3", UserFuncVal.plain 0)] ∧
      construct_functions [] [] [(PyKey.nonString "3", UserFuncVal.plain 0)] =
        Except.error
          (ConfigError.mk (r2 ++ " is not a valid name for a function (must be a string)")) :=
  construct_functions_user_cases.1 [(PyKey.nonString "3", UserFuncVal.plain 0)]
    ⟨"3", UserFuncVal.plain 0, List.mem_cons_self _ _⟩
